import Mathlib

/-!
Verification development for the WHIP plugin (`src/main.py`).

The development shallowly embeds the rendezvous core of the plugin:

* `Future` models `asyncio.Future` (a single-assignment cell that can also be
  cancelled by `asyncio.wait_for` on timeout);
* `JValue` / `json_loads` model Python's `json.loads` on the JSON subset the
  handler can receive (numbers are integers, with a payload-free `jfloat`
  constructor standing for any JSON float, which the handler can only ever
  pass to `bytearray`, where it raises `TypeError` exactly as a float does);
* `py_bytearray` and `decode_utf8` model `bytearray(...)` and
  `.decode("utf-8")`;
* `WHIPSession`, `descriptionExchange` model the camera-side session object
  and the body of `startRTCSignalingSession` after the offer arrives
  (lines 120-150);
* `DeviceState`, `onRequestSync`, `startSessionEnqueue`, `offerWait`,
  `answerWait` model the mutable per-device state (the `pending_webrtc`
  queue and the futures it holds) and the two entry points, with the
  synchronous stretches of Python code embedded as atomic functions and the
  two `await asyncio.wait_for` suspension points made explicit;
* `Event` / `applyEvent` / `applyTrace` give the cooperative interleaving
  semantics: each event is one of the atomic synchronous stretches above, and
  a trace is an arbitrary interleaving of HTTP requests, session starts and
  offer-wait timeouts against one device.
-/

namespace Whip

/-- Python exception kinds raised by the embedded code. `exc` is a plain
`Exception(msg)`; `invalidState` is `asyncio.InvalidStateError` raised by
`Future.set_result` on a completed future; `timeoutError` and
`cancelledError` are the `asyncio` waiting errors. -/
inductive PyError where
  | typeError (msg : String)
  | valueError (msg : String)
  | attributeError (msg : String)
  | jsonDecodeError
  | unicodeDecodeError
  | invalidState
  | timeoutError
  | cancelledError
  | exc (msg : String)
  deriving DecidableEq, Repr

instance {ε α : Type} [DecidableEq ε] [DecidableEq α] : DecidableEq (Except ε α)
  | .ok a, .ok b => decidable_of_iff (a = b) (by simp)
  | .error a, .error b => decidable_of_iff (a = b) (by simp)
  | .ok _, .error _ => isFalse (by simp)
  | .error _, .ok _ => isFalse (by simp)

/-- State of an `asyncio.Future`: pending, resolved with a value, or
cancelled (which is how `asyncio.wait_for` abandons a future on timeout). -/
inductive Future (α : Type) where
  | pending
  | done (v : α)
  | cancelled
  deriving DecidableEq, Repr

/-- `Future.done()`: true once resolved or cancelled. -/
def Future.isDone {α : Type} : Future α → Bool
  | .pending => false
  | .done _ => true
  | .cancelled => true

/-- True exactly for a future resolved with a value. -/
def Future.isFulfilled {α : Type} : Future α → Bool
  | .done _ => true
  | _ => false

/-- `asyncio.Future.set_result`: succeeds only on a pending future and
resolves it; on a done or cancelled future it raises `InvalidStateError`
without changing the future. -/
def Future.set_result {α : Type} (f : Future α) (v : α) : Except PyError (Future α) :=
  match f with
  | .pending => .ok (.done v)
  | _ => .error .invalidState

/-- JSON values, as produced by `json.loads`. `jfloat` stands for any JSON
float: the handler never inspects a float beyond handing it to `bytearray`,
which raises `TypeError` on floats, so the numeric value is irrelevant. -/
inductive JValue where
  | null
  | bool (b : Bool)
  | num (n : Int)
  | jfloat
  | str (s : String)
  | arr (elems : List JValue)
  | obj (fields : List (String × JValue))

/-- JSON whitespace. -/
def isJsonWs (c : Char) : Bool :=
  c = ' ' || c = '\t' || c = '\n' || c = '\r'

/-- Skip JSON whitespace. -/
def skipWs (cs : List Char) : List Char :=
  cs.dropWhile isJsonWs

/-- Value of a hex digit. -/
def hexVal (c : Char) : Option Nat :=
  if '0' ≤ c ∧ c ≤ '9' then some (c.toNat - '0'.toNat)
  else if 'a' ≤ c ∧ c ≤ 'f' then some (c.toNat - 'a'.toNat + 10)
  else if 'A' ≤ c ∧ c ≤ 'F' then some (c.toNat - 'A'.toNat + 10)
  else none

/-- Parse the characters of a JSON string after the opening quote, up to and
consuming the closing quote.  Handles the JSON escapes; rejects unescaped
control characters, as `json.loads` does. -/
def parseStringChars : Nat → List Char → Option (List Char × List Char)
  | 0, _ => none
  | _ + 1, [] => none
  | fuel + 1, c :: cs =>
    if c = Char.ofNat 34 then some ([], cs)
    else if c = '\\' then
      match cs with
      | [] => none
      | e :: cs1 =>
        let esc : Option (Char × List Char) :=
          if e = Char.ofNat 34 then some (Char.ofNat 34, cs1)
          else if e = '\\' then some ('\\', cs1)
          else if e = '/' then some ('/', cs1)
          else if e = 'b' then some (Char.ofNat 8, cs1)
          else if e = 'f' then some (Char.ofNat 12, cs1)
          else if e = 'n' then some ('\n', cs1)
          else if e = 'r' then some (Char.ofNat 13, cs1)
          else if e = 't' then some ('\t', cs1)
          else if e = 'u' then
            match cs1 with
            | h1 :: h2 :: h3 :: h4 :: cs2 =>
              match hexVal h1, hexVal h2, hexVal h3, hexVal h4 with
              | some a, some b, some c2, some d =>
                some (Char.ofNat (a * 4096 + b * 256 + c2 * 16 + d), cs2)
              | _, _, _, _ => none
            | _ => none
          else none
        match esc with
        | some (ch, rest) => (parseStringChars fuel rest).map fun p => (ch :: p.1, p.2)
        | none => none
    else if c.toNat < 32 then none
    else (parseStringChars fuel cs).map fun p => (c :: p.1, p.2)

/-- Fold decimal digits into a natural number. -/
def digitsToNat (ds : List Char) : Nat :=
  ds.foldl (fun acc c => acc * 10 + (c.toNat - 48)) 0

/-- Parse the exponent part of a JSON number (after `e`/`E`); the result is a
float. -/
def parseExpPart (cs : List Char) : Option (JValue × List Char) :=
  let cs1 := match cs with
    | '+' :: r => r
    | '-' :: r => r
    | _ => cs
  let ds := cs1.takeWhile Char.isDigit
  let r := cs1.dropWhile Char.isDigit
  if ds.isEmpty then none else some (JValue.jfloat, r)

/-- Parse a JSON number (strict grammar: no leading zeros, a fraction or
exponent makes it a float). -/
def parseNumber (cs : List Char) : Option (JValue × List Char) :=
  let (neg, cs1) := match cs with
    | '-' :: r => (true, r)
    | _ => (false, cs)
  let ds := cs1.takeWhile Char.isDigit
  let cs2 := cs1.dropWhile Char.isDigit
  if ds.isEmpty then none
  else if ds.length > 1 ∧ ds.headD '0' = '0' then none
  else
    match cs2 with
    | '.' :: r =>
      let fs := r.takeWhile Char.isDigit
      let r2 := r.dropWhile Char.isDigit
      if fs.isEmpty then none
      else
        match r2 with
        | e :: r3 => if e = 'e' ∨ e = 'E' then parseExpPart r3 else some (JValue.jfloat, r2)
        | [] => some (JValue.jfloat, [])
    | e :: r =>
      if e = 'e' ∨ e = 'E' then parseExpPart r
      else some (JValue.num (if neg then -(digitsToNat ds : Int) else (digitsToNat ds : Int)), cs2)
    | [] => some (JValue.num (if neg then -(digitsToNat ds : Int) else (digitsToNat ds : Int)), [])

mutual

/-- Parse one JSON value.  Fuel bounds the nesting recursion; `json_loads`
supplies one unit of fuel per input character, enough for any input since
every recursive step first consumes at least one character. -/
def parseValue : Nat → List Char → Option (JValue × List Char)
  | 0, _ => none
  | fuel + 1, cs =>
    match skipWs cs with
    | [] => none
    | c :: rest =>
      if c = Char.ofNat 34 then
        (parseStringChars (rest.length + 1) rest).map fun p => (JValue.str (String.mk p.1), p.2)
      else if c = Char.ofNat 123 then
        match skipWs rest with
        | [] => none
        | c2 :: rest2 =>
          if c2 = Char.ofNat 125 then some (JValue.obj [], rest2)
          else parseMembers fuel (c2 :: rest2)
      else if c = '[' then
        match skipWs rest with
        | [] => none
        | c2 :: rest2 =>
          if c2 = ']' then some (JValue.arr [], rest2)
          else parseElements fuel (c2 :: rest2)
      else if c = 't' then
        match rest with
        | 'r' :: 'u' :: 'e' :: r => some (JValue.bool true, r)
        | _ => none
      else if c = 'f' then
        match rest with
        | 'a' :: 'l' :: 's' :: 'e' :: r => some (JValue.bool false, r)
        | _ => none
      else if c = 'n' then
        match rest with
        | 'u' :: 'l' :: 'l' :: r => some (JValue.null, r)
        | _ => none
      else parseNumber (c :: rest)

/-- Parse the members of a JSON object after the opening brace (first
non-whitespace character already known not to be the closing brace). -/
def parseMembers : Nat → List Char → Option (JValue × List Char)
  | 0, _ => none
  | fuel + 1, cs =>
    match skipWs cs with
    | [] => none
    | c :: rest =>
      if c = Char.ofNat 34 then
        match parseStringChars (rest.length + 1) rest with
        | none => none
        | some (key, r1) =>
          match skipWs r1 with
          | ':' :: r2 =>
            match parseValue fuel r2 with
            | none => none
            | some (v, r3) =>
              match skipWs r3 with
              | ',' :: r4 =>
                match parseMembers fuel r4 with
                | some (JValue.obj fs, r5) => some (JValue.obj ((String.mk key, v) :: fs), r5)
                | _ => none
              | c5 :: r5 =>
                if c5 = Char.ofNat 125 then some (JValue.obj [(String.mk key, v)], r5)
                else none
              | [] => none
          | _ => none
      else none

/-- Parse the elements of a JSON array after the opening bracket (first
non-whitespace character already known not to be the closing bracket). -/
def parseElements : Nat → List Char → Option (JValue × List Char)
  | 0, _ => none
  | fuel + 1, cs =>
    match parseValue fuel cs with
    | none => none
    | some (v, r1) =>
      match skipWs r1 with
      | ',' :: r2 =>
        match parseElements fuel r2 with
        | some (JValue.arr xs, r3) => some (JValue.arr (v :: xs), r3)
        | _ => none
      | ']' :: r2 => some (JValue.arr [v], r2)
      | _ => none

end

/-- `json.loads` (line 158): parse the whole body, requiring only trailing
whitespace after the value; any failure is a `JSONDecodeError`. -/
def json_loads (s : String) : Except PyError JValue :=
  match parseValue (s.data.length + 1) s.data with
  | some (v, rest) => if (skipWs rest).isEmpty then .ok v else .error .jsonDecodeError
  | none => .error .jsonDecodeError

/-- Last binding of a key in an object's field list (on duplicate keys,
`json.loads` keeps the last). -/
def lookupLast (key : String) : List (String × JValue) → Option JValue
  | [] => none
  | (k, v) :: rest =>
    match lookupLast key rest with
    | some r => some r
    | none => if k = key then some v else none

/-- `body.get("data", "")` (line 159): `dict.get` with a default; on a
non-dict JSON value the attribute access raises `AttributeError`. -/
def dict_get (j : JValue) (key : String) (default : JValue) : Except PyError JValue :=
  match j with
  | .obj fields => .ok ((lookupLast key fields).getD default)
  | _ => .error (.attributeError "object has no attribute get")

/-- `bytearray(x)` (line 159): a list of ints in `[0, 256)` gives those
bytes (`bool` counts as an int, `True = 1`); a non-negative int `n` gives
`n` zero bytes; a `str` without an encoding, a float, and every other value
raise `TypeError`; out-of-range ints raise `ValueError`. -/
def py_bytearray : JValue → Except PyError (List Nat)
  | .arr xs =>
    xs.mapM fun x =>
      match x with
      | .num n => if 0 ≤ n ∧ n < 256 then .ok n.toNat else .error (.valueError "byte must be in range(0, 256)")
      | .bool b => .ok (if b then 1 else 0)
      | _ => .error (.typeError "an integer is required")
  | .num n => if 0 ≤ n then .ok (List.replicate n.toNat 0) else .error (.valueError "negative count")
  | .bool b => .ok (List.replicate (if b then 1 else 0) 0)
  | .str _ => .error (.typeError "string argument without an encoding")
  | _ => .error (.typeError "cannot convert object to bytearray")

/-- Strict UTF-8 decoding of a byte list into characters: rejects stray
continuation bytes, overlong forms, surrogates and out-of-range leads, as
Python's `bytes.decode("utf-8")` does.  Fuel is one unit per byte. -/
def utf8Chars : Nat → List Nat → Option (List Char)
  | _, [] => some []
  | 0, _ => none
  | fuel + 1, b :: rest =>
    if b < 0x80 then
      (utf8Chars fuel rest).map fun l => Char.ofNat b :: l
    else if b < 0xC2 then none
    else if b < 0xE0 then
      match rest with
      | b1 :: rest1 =>
        if 0x80 ≤ b1 ∧ b1 < 0xC0 then
          (utf8Chars fuel rest1).map fun l => Char.ofNat ((b - 0xC0) * 64 + (b1 - 0x80)) :: l
        else none
      | _ => none
    else if b < 0xF0 then
      match rest with
      | b1 :: b2 :: rest2 =>
        if 0x80 ≤ b1 ∧ b1 < 0xC0 ∧ 0x80 ≤ b2 ∧ b2 < 0xC0 then
          let cp := (b - 0xE0) * 4096 + (b1 - 0x80) * 64 + (b2 - 0x80)
          if 0x800 ≤ cp ∧ ¬(0xD800 ≤ cp ∧ cp ≤ 0xDFFF) then
            (utf8Chars fuel rest2).map fun l => Char.ofNat cp :: l
          else none
        else none
      | _ => none
    else if b < 0xF5 then
      match rest with
      | b1 :: b2 :: b3 :: rest3 =>
        if 0x80 ≤ b1 ∧ b1 < 0xC0 ∧ 0x80 ≤ b2 ∧ b2 < 0xC0 ∧ 0x80 ≤ b3 ∧ b3 < 0xC0 then
          let cp := (b - 0xF0) * 262144 + (b1 - 0x80) * 4096 + (b2 - 0x80) * 64 + (b3 - 0x80)
          if 0x10000 ≤ cp ∧ cp ≤ 0x10FFFF then
            (utf8Chars fuel rest3).map fun l => Char.ofNat cp :: l
          else none
        else none
      | _ => none
    else none

/-- `.decode("utf-8")` (line 159). -/
def decode_utf8 (bytes : List Nat) : Except PyError String :=
  match utf8Chars (bytes.length + 1) bytes with
  | some cs => .ok (String.mk cs)
  | none => .error .unicodeDecodeError

/-- Lines 158-159 of `onRequest`: `json.loads` the body, read its `data`
field with default `""`, convert through `bytearray` and decode as UTF-8,
recovering the SDP offer text; any step may raise. -/
def parseSdp (s : String) : Except PyError String :=
  match json_loads s with
  | .error e => .error e
  | .ok j =>
    match dict_get j "data" (JValue.str "") with
    | .error e => .error e
    | .ok data =>
      match py_bytearray data with
      | .error e => .error e
      | .ok bs => decode_utf8 bs

/-- An SDP session description dict, with fields `sdp` and `type`. -/
structure Description where
  sdp : String
  type : String
  deriving DecidableEq, Repr

/-- The camera-side session object (lines 46-63): it holds the offer text
received over HTTP and the answer future shared with the HTTP handler. -/
structure WHIPSession where
  offer : String
  resolve_answer : Future String
  deriving DecidableEq, Repr

/-- Lines 52-58: `createLocalDescription` can only produce offers; for type
`"offer"` it wraps the stored offer text verbatim.  (The unused `setup` and
`sendIceCandidate` parameters are omitted.) -/
def WHIPSession.createLocalDescription (s : WHIPSession) (type : String) :
    Except PyError Description :=
  if type ≠ "offer" then
    .error (.exc "can only create offers in WHIPSession.createLocalDescription")
  else .ok ⟨s.offer, "offer"⟩

/-- Lines 60-63: `setRemoteDescription` requires an `"answer"`-typed
description and then resolves the shared answer future with its SDP via
`set_result` (which itself raises `InvalidStateError` on a completed
future).  Returns the new state of the answer future. -/
def WHIPSession.setRemoteDescription (s : WHIPSession) (description : Description) :
    Except PyError (Future String) :=
  if description.type ≠ "answer" then
    .error (.exc "can only accept answers in WHIPSession.setRemoteDescription")
  else s.resolve_answer.set_result description.sdp

/-- Behaviour of the host-side (`scrypted_session`) collaborator during one
exchange: what its `setRemoteDescription` returns for a given description,
and what description its `createLocalDescription("answer", ...)` yields.
The setup dicts passed by the plugin are fixed policy payloads and do not
influence the control flow of this core, so they are absorbed here. -/
structure ScryptedSession where
  setRemoteResult : Description → Except PyError Unit
  answerResult : Except PyError Description

/-- Lines 120 and 139-148 of `startRTCSignalingSession`: construct the
camera session over the received offer and the shared answer future, then
drive the four description-exchange steps.  Returns the outcome of the
`try` block together with the final state of the answer future (which is
mutated only by the last step, `camera_session.setRemoteDescription`). -/
def descriptionExchange (offer : String) (host : ScryptedSession) (ansFut : Future String) :
    Except PyError Unit × Future String :=
  match WHIPSession.createLocalDescription ⟨offer, ansFut⟩ "offer" with
  | .error e => (.error e, ansFut)
  | .ok camera_offer =>
    match host.setRemoteResult camera_offer with
    | .error e => (.error e, ansFut)
    | .ok _ =>
      match host.answerResult with
      | .error e => (.error e, ansFut)
      | .ok scrypted_offer =>
        match WHIPSession.setRemoteDescription ⟨offer, ansFut⟩ scrypted_offer with
        | .error e => (.error e, ansFut)
        | .ok f => (.ok (), f)

/-- The mutable state of one `WHIPDevice`: the `pending_webrtc` queue (line
85) holding offer futures, and the stores of offer and answer futures.
Futures are named by allocation indices (`nOffers`, `nAnswers` count the
allocations); a future the Python code has not created yet is represented
as `pending` and only ever touched after its allocation. -/
structure DeviceState where
  queue : List Nat
  offerFuts : Nat → Future (String × Nat)
  nOffers : Nat
  answerFuts : Nat → Future String
  nAnswers : Nat

/-- A device as constructed on line 85: empty queue, no futures yet. -/
def initialDevice : DeviceState :=
  { queue := [], offerFuts := fun _ => .pending, nOffers := 0,
    answerFuts := fun _ => .pending, nAnswers := 0 }

/-- The drain loop of `onRequest` (lines 170-174): starting from
`offer_fut = None`, repeatedly `get_nowait` from the queue; stop (keeping
the popped future and the remaining queue) at the first future that is not
done.  When the queue runs out the loop variable keeps the *last popped*
future — which is done — and is `None` only if the loop never ran. -/
def drain (isDone : Nat → Bool) : List Nat → Option Nat × List Nat
  | [] => (none, [])
  | i :: rest =>
    if !isDone i then (some i, rest)
    else if rest.isEmpty then (some i, [])
    else drain isDone rest

/-- One HTTP response: `response.send(body, code)`. -/
inductive Response where
  | send (body : String) (code : Nat)
  deriving DecidableEq, Repr

/-- Outcome of the synchronous part of `onRequest`: returned without
responding (lines 153-154), responded and returned, or reached the
`await asyncio.wait_for(answer_fut, 1)` on line 183 for the given answer
future. -/
inductive ReqOutcome where
  | noResponse
  | responded (r : Response)
  | awaitingAnswer (ansId : Nat)
  deriving DecidableEq, Repr

/-- The synchronous stretch of `onRequest` (lines 152-181): the empty-body
no-op guard, body parsing (500 on any raised error), the 400 guard for an
empty decoded SDP, the empty-queue 503 guard, the drain loop, the dead
`if not offer_fut` 503 branch (a Future object is always truthy, so it is
taken only when the loop never ran, which the empty-queue guard already
excludes), creation of the fresh answer future, and
`offer_fut.set_result((body, answer_fut))` — whose `InvalidStateError` on a
stale future is caught by the generic handler and answered with 500.
There is no `await` in this stretch, so it executes atomically. -/
def onRequestSync (st : DeviceState) (body : Option String) : DeviceState × ReqOutcome :=
  if body = none ∨ body = some "" ∨ body = some "\x7b\x7d" then (st, .noResponse)
  else
    match parseSdp (body.getD "") with
    | .error _ => (st, .responded (.send "Error processing request" 500))
    | .ok sdp =>
      if sdp = "" then (st, .responded (.send "No SDP provided" 400))
      else if st.queue.isEmpty then (st, .responded (.send "No pending connection" 503))
      else
        match drain (fun i => (st.offerFuts i).isDone) st.queue with
        | (none, q) => ({ st with queue := q }, .responded (.send "No pending connection" 503))
        | (some i, q) =>
          match (st.offerFuts i).set_result (sdp, st.nAnswers) with
          | .error _ =>
            ({ st with queue := q,
                       answerFuts := Function.update st.answerFuts st.nAnswers .pending,
                       nAnswers := st.nAnswers + 1 },
             .responded (.send "Error processing request" 500))
          | .ok f =>
            ({ st with queue := q,
                       offerFuts := Function.update st.offerFuts i f,
                       answerFuts := Function.update st.answerFuts st.nAnswers .pending,
                       nAnswers := st.nAnswers + 1 },
             .awaitingAnswer st.nAnswers)

/-- The bound of `asyncio.wait_for(answer_fut, timeout=1)` on line 183. -/
def ANSWER_TIMEOUT : Nat := 1

/-- Lines 183-187: the bounded wait for the answer.  If the future is
resolved within the bound the handler responds 201 with the answer text as
the body; if the bound expires first, `wait_for` raises `TimeoutError` and
the handler responds 504.  (No code path cancels an answer future.) -/
def answerWait : Future String → Response
  | .done a => .send a 201
  | _ => .send "Timeout waiting for answer" 504

/-- Lines 107-109 of `startRTCSignalingSession`: create a fresh pending
offer future and `put_nowait` it at the tail of the queue.  Returns the new
state and the new future's index. -/
def startSessionEnqueue (st : DeviceState) : DeviceState × Nat :=
  ({ st with offerFuts := Function.update st.offerFuts st.nOffers .pending,
             queue := st.queue ++ [st.nOffers],
             nOffers := st.nOffers + 1 },
   st.nOffers)

/-- The bound of `asyncio.wait_for(offer_fut, timeout=60)` on line 112. -/
def OFFER_TIMEOUT : Nat := 60

/-- Lines 111-118: outcome of awaiting the offer future with the 60 s
bound, given the future's state when the wait ends.  A future still pending
at the bound means `wait_for` raised `TimeoutError` (logged and re-raised);
a cancelled wait re-raises `CancelledError`. -/
def offerWait : Future (String × Nat) → Except PyError (String × Nat)
  | .done v => .ok v
  | .pending => .error .timeoutError
  | .cancelled => .error .cancelledError

/-- The atomic steps that touch one device's shared state, for interleaving
arbitrarily many HTTP requests and signaling sessions:
`startSession` is lines 107-109; `offerTimeout i` is `asyncio.wait_for`
cancelling offer future `i` when its 60 s bound expires (a no-op unless the
future is still pending, since a completed future cannot time out);
`httpRequest body` is the synchronous stretch of `onRequest`. -/
inductive Event where
  | startSession
  | offerTimeout (i : Nat)
  | httpRequest (body : Option String)

/-- Apply one atomic event to the device state. -/
def applyEvent (st : DeviceState) : Event → DeviceState
  | .startSession => (startSessionEnqueue st).1
  | .offerTimeout i =>
    if st.offerFuts i = .pending then
      { st with offerFuts := Function.update st.offerFuts i .cancelled }
    else st
  | .httpRequest body => (onRequestSync st body).1

/-- Apply a trace of atomic events in order. -/
def applyTrace (st : DeviceState) : List Event → DeviceState
  | [] => st
  | e :: tr => applyTrace (applyEvent st e) tr

/-- Number of fulfilled offer futures among the first `n` allocated. -/
def doneOffersUpTo (f : Nat → Future (String × Nat)) : Nat → Nat
  | 0 => 0
  | n + 1 => doneOffersUpTo f n + (if (f n).isFulfilled then 1 else 0)

/-- Number of offer/session pairings in a device state: offer futures that
have been fulfilled with an offer. -/
def doneOffers (st : DeviceState) : Nat :=
  doneOffersUpTo st.offerFuts st.nOffers

/-- Count the events satisfying a predicate. -/
def countEvents (p : Event → Bool) : List Event → Nat
  | [] => 0
  | e :: tr => (if p e then 1 else 0) + countEvents p tr

/-- HTTP offer submissions. -/
def isRequestEvent : Event → Bool
  | .httpRequest _ => true
  | _ => false

/-- Signaling-session claims. -/
def isSessionEvent : Event → Bool
  | .startSession => true
  | _ => false

/-! ### Helper lemmas -/

/-- `set_result` succeeds exactly on a pending future, resolving it. -/
theorem set_result_ok_iff {α : Type} (g : Future α) (x : α) (f : Future α) :
    g.set_result x = .ok f ↔ (g = .pending ∧ f = .done x) := by
  cases g with
  | pending => simp [Future.set_result, eq_comm]
  | done v => simp [Future.set_result]
  | cancelled => simp [Future.set_result]

/-- `set_result` on a non-pending future raises `InvalidStateError`. -/
theorem set_result_error (g : Future String) (x : String) (h : g ≠ .pending) :
    g.set_result x = .error .invalidState := by
  cases g <;> simp [Future.set_result] at h ⊢

theorem parseSdp_empty : parseSdp "" = .error .jsonDecodeError := rfl

theorem parseSdp_emptyObj :
    parseSdp "\x7b\x7d" = .error (.typeError "string argument without an encoding") := rfl

/-- A body whose parse succeeds is neither empty nor the literal
empty-object marker. -/
theorem body_ne_of_parse_ok (s sdp : String) (h : parseSdp s = .ok sdp) :
    s ≠ "" ∧ s ≠ "\x7b\x7d" := by
  constructor
  · rintro rfl; rw [parseSdp_empty] at h; exact Except.noConfusion h
  · rintro rfl; rw [parseSdp_emptyObj] at h; exact Except.noConfusion h

/-- The no-op guard of `onRequest` fails for a body that is neither empty
nor the empty-object marker. -/
theorem body_guard_false (s : String) (h1 : s ≠ "") (h2 : s ≠ "\x7b\x7d") :
    ¬(some s = none ∨ some s = some "" ∨ some s = some "\x7b\x7d") := by
  rintro (h | h | h) <;> simp_all

/-- Structure of the synchronous part of `onRequest`: it never changes the
number of allocated offer futures, and it either leaves the offer futures
unchanged or fulfills exactly one of them, which was pending. -/
theorem onRequestSync_spec (st : DeviceState) (b : Option String) :
    (onRequestSync st b).1.nOffers = st.nOffers ∧
    ((onRequestSync st b).1.offerFuts = st.offerFuts ∨
      ∃ i sdp aid, st.offerFuts i = .pending ∧
        (onRequestSync st b).1.offerFuts = Function.update st.offerFuts i (.done (sdp, aid))) := by
  unfold onRequestSync
  split
  · exact ⟨rfl, .inl rfl⟩
  split
  · exact ⟨rfl, .inl rfl⟩
  split
  · exact ⟨rfl, .inl rfl⟩
  split
  · exact ⟨rfl, .inl rfl⟩
  split
  · exact ⟨rfl, .inl rfl⟩
  split
  · exact ⟨rfl, .inl rfl⟩
  next f hset =>
    rw [set_result_ok_iff] at hset
    exact ⟨rfl, .inr ⟨_, _, st.nAnswers, hset.1, by rw [hset.2]⟩⟩

/-- The synchronous part of `onRequest` changes at most one offer future. -/
theorem onRequestSync_one_change (st : DeviceState) (b : Option String) :
    ∃ oi, ∀ k, k ≠ oi → (onRequestSync st b).1.offerFuts k = st.offerFuts k := by
  rcases (onRequestSync_spec st b).2 with h | ⟨i, sdp, aid, _, h⟩
  · exact ⟨0, fun k _ => by rw [h]⟩
  · exact ⟨i, fun k hk => by rw [h, Function.update_noteq hk]⟩

theorem doneOffersUpTo_congr (f g : Nat → Future (String × Nat)) (n : Nat)
    (h : ∀ j, j < n → (f j).isFulfilled = (g j).isFulfilled) :
    doneOffersUpTo f n = doneOffersUpTo g n := by
  induction n with
  | zero => rfl
  | succ n ih =>
    simp only [doneOffersUpTo]
    rw [ih (fun j hj => h j (Nat.lt_succ_of_lt hj)), h n (Nat.lt_succ_self n)]

theorem doneOffersUpTo_le (f : Nat → Future (String × Nat)) (n : Nat) :
    doneOffersUpTo f n ≤ n := by
  induction n with
  | zero => exact Nat.le_refl 0
  | succ n ih => simp only [doneOffersUpTo]; split <;> omega

theorem doneOffersUpTo_update_le (f : Nat → Future (String × Nat)) (i : Nat)
    (v : Future (String × Nat)) (n : Nat) :
    doneOffersUpTo (Function.update f i v) n ≤ doneOffersUpTo f n + 1 := by
  induction n with
  | zero => exact Nat.le_succ 0
  | succ n ih =>
    simp only [doneOffersUpTo]
    by_cases hi : n = i
    · subst hi
      rw [doneOffersUpTo_congr (Function.update f n v) f n
        (fun j hj => by rw [Function.update_noteq (Nat.ne_of_lt hj)])]
      split <;> split <;> omega
    · rw [Function.update_noteq hi]
      split <;> omega

/-- Events preserve the allocation counter except `startSession`, which
bumps it. -/
theorem nOffers_applyEvent (st : DeviceState) (e : Event) :
    (applyEvent st e).nOffers = st.nOffers + (if isSessionEvent e then 1 else 0) := by
  cases e with
  | startSession => rfl
  | offerTimeout i =>
    simp only [applyEvent, isSessionEvent]
    split <;> rfl
  | httpRequest b =>
    show (onRequestSync st b).1.nOffers = _
    rw [(onRequestSync_spec st b).1]
    simp [isSessionEvent]

/-- Each atomic event creates at most one new offer/session pairing, and
only an HTTP request can create one. -/
theorem doneOffers_applyEvent_le (st : DeviceState) (e : Event) :
    doneOffers (applyEvent st e) ≤ doneOffers st + (if isRequestEvent e then 1 else 0) := by
  cases e with
  | startSession =>
    show doneOffersUpTo (Function.update st.offerFuts st.nOffers .pending) (st.nOffers + 1) ≤ _
    simp only [doneOffersUpTo]
    rw [doneOffersUpTo_congr (Function.update st.offerFuts st.nOffers .pending) st.offerFuts
        st.nOffers (fun j hj => by rw [Function.update_noteq (Nat.ne_of_lt hj)]),
      Function.update_same]
    simp [Future.isFulfilled, doneOffers, isRequestEvent]
  | offerTimeout i =>
    simp only [applyEvent]
    split
    · rename_i hpend
      show doneOffersUpTo _ st.nOffers ≤ _
      rw [doneOffersUpTo_congr (Function.update st.offerFuts i .cancelled) st.offerFuts st.nOffers
        (fun j _ => by
          by_cases hj : j = i
          · subst hj; rw [Function.update_same, hpend]; rfl
          · rw [Function.update_noteq hj])]
      simp [doneOffers, isRequestEvent]
    · simp [doneOffers, isRequestEvent]
  | httpRequest b =>
    show doneOffers (onRequestSync st b).1 ≤ _
    have hn := (onRequestSync_spec st b).1
    rcases (onRequestSync_spec st b).2 with h | ⟨i, sdp, aid, _, h⟩
    · simp [doneOffers, hn, h, isRequestEvent]
    · simp only [doneOffers, hn, h, isRequestEvent, if_pos]
      exact doneOffersUpTo_update_le st.offerFuts i _ st.nOffers

/-- A fulfilled offer future keeps its value and stays allocated across any
atomic event: a session that has received an offer never receives another. -/
theorem done_stays_event (st : DeviceState) (e : Event) (j : Nat) (v : String × Nat)
    (hj : j < st.nOffers) (hdone : st.offerFuts j = .done v) :
    (applyEvent st e).offerFuts j = .done v ∧ j < (applyEvent st e).nOffers := by
  refine ⟨?_, by rw [nOffers_applyEvent]; omega⟩
  cases e with
  | startSession =>
    show Function.update st.offerFuts st.nOffers .pending j = _
    rw [Function.update_noteq (Nat.ne_of_lt hj), hdone]
  | offerTimeout i =>
    simp only [applyEvent]
    split
    · rename_i hpend
      have hne : j ≠ i := fun h => by rw [h, hpend] at hdone; exact Future.noConfusion hdone
      show Function.update st.offerFuts i .cancelled j = _
      rw [Function.update_noteq hne, hdone]
    · exact hdone
  | httpRequest b =>
    show (onRequestSync st b).1.offerFuts j = _
    rcases (onRequestSync_spec st b).2 with h | ⟨i, sdp, aid, hpend, h⟩
    · rw [h, hdone]
    · have hne : j ≠ i := fun hji => by rw [hji, hpend] at hdone; exact Future.noConfusion hdone
      rw [h, Function.update_noteq hne, hdone]

/-- A cancelled (abandoned) offer future stays cancelled across any atomic
event: no later claim can fulfill it. -/
theorem cancelled_stays_event (st : DeviceState) (e : Event) (j : Nat)
    (hj : j < st.nOffers) (hc : st.offerFuts j = .cancelled) :
    (applyEvent st e).offerFuts j = .cancelled ∧ j < (applyEvent st e).nOffers := by
  refine ⟨?_, by rw [nOffers_applyEvent]; omega⟩
  cases e with
  | startSession =>
    show Function.update st.offerFuts st.nOffers .pending j = _
    rw [Function.update_noteq (Nat.ne_of_lt hj), hc]
  | offerTimeout i =>
    simp only [applyEvent]
    split
    · rename_i hpend
      have hne : j ≠ i := fun h => by rw [h, hpend] at hc; exact Future.noConfusion hc
      show Function.update st.offerFuts i .cancelled j = _
      rw [Function.update_noteq hne, hc]
    · exact hc
  | httpRequest b =>
    show (onRequestSync st b).1.offerFuts j = _
    rcases (onRequestSync_spec st b).2 with h | ⟨i, sdp, aid, hpend, h⟩
    · rw [h, hc]
    · have hne : j ≠ i := fun hji => by rw [hji, hpend] at hc; exact Future.noConfusion hc
      rw [h, Function.update_noteq hne, hc]

theorem cancelled_stays_trace (st : DeviceState) (tr : List Event) (j : Nat)
    (hj : j < st.nOffers) (hc : st.offerFuts j = .cancelled) :
    (applyTrace st tr).offerFuts j = .cancelled := by
  induction tr generalizing st with
  | nil => exact hc
  | cons e tr ih =>
    have h := cancelled_stays_event st e j hj hc
    exact ih (applyEvent st e) h.2 h.1

theorem done_stays_trace (st : DeviceState) (tr : List Event) (j : Nat) (v : String × Nat)
    (hj : j < st.nOffers) (hdone : st.offerFuts j = .done v) :
    (applyTrace st tr).offerFuts j = .done v := by
  induction tr generalizing st with
  | nil => exact hdone
  | cons e tr ih =>
    have h := done_stays_event st e j v hj hdone
    exact ih (applyEvent st e) h.2 h.1

theorem nOffers_applyTrace (st : DeviceState) (tr : List Event) :
    (applyTrace st tr).nOffers = st.nOffers + countEvents isSessionEvent tr := by
  induction tr generalizing st with
  | nil => rfl
  | cons e tr ih =>
    show (applyTrace (applyEvent st e) tr).nOffers = _
    rw [ih, nOffers_applyEvent, countEvents]
    omega

theorem doneOffers_applyTrace_le (st : DeviceState) (tr : List Event) :
    doneOffers (applyTrace st tr) ≤ doneOffers st + countEvents isRequestEvent tr := by
  induction tr generalizing st with
  | nil => exact Nat.le_refl _
  | cons e tr ih =>
    show doneOffers (applyTrace (applyEvent st e) tr) ≤ _
    have h1 := ih (applyEvent st e)
    have h2 := doneOffers_applyEvent_le st e
    rw [countEvents]
    omega

theorem doneOffers_le_nOffers (st : DeviceState) : doneOffers st ≤ st.nOffers :=
  doneOffersUpTo_le st.offerFuts st.nOffers

/-- A parse failure anywhere in lines 158-159 is caught by the generic
handler of line 188 and answered 500. -/
theorem onRequestSync_of_parse_error (st : DeviceState) (s : String) (e : PyError)
    (h1 : s ≠ "") (h2 : s ≠ "\x7b\x7d") (hp : parseSdp s = .error e) :
    onRequestSync st (some s) = (st, .responded (.send "Error processing request" 500)) := by
  unfold onRequestSync
  rw [if_neg (body_guard_false s h1 h2)]
  simp only [Option.getD_some, hp]

/-- A body decoding to the empty SDP is answered 400 (line 162). -/
theorem onRequestSync_of_parse_empty (st : DeviceState) (s : String)
    (h1 : s ≠ "") (h2 : s ≠ "\x7b\x7d") (hp : parseSdp s = .ok "") :
    onRequestSync st (some s) = (st, .responded (.send "No SDP provided" 400)) := by
  unfold onRequestSync
  rw [if_neg (body_guard_false s h1 h2)]
  simp only [Option.getD_some, hp, if_true]

/-- A fully successful description exchange: the host accepts the camera
offer and produces an `"answer"`-typed description, so the final
`setRemoteDescription` resolves the pending answer future with its sdp. -/
theorem descriptionExchange_ok (offer A : String) (host : ScryptedSession)
    (hhost1 : host.setRemoteResult ⟨offer, "offer"⟩ = .ok ())
    (hhost2 : host.answerResult = .ok ⟨A, "answer"⟩) :
    descriptionExchange offer host .pending = (.ok (), .done A) := by
  unfold descriptionExchange
  rw [show WHIPSession.createLocalDescription ⟨offer, Future.pending⟩ "offer"
      = .ok ⟨offer, "offer"⟩ from rfl]
  simp only [hhost1, hhost2]
  rw [show WHIPSession.setRemoteDescription ⟨offer, Future.pending⟩ ⟨A, "answer"⟩
      = .ok (.done A) from rfl]

/-- Full computation of the synchronous part of `onRequest` in the
rendezvous scenario: a single queued, still-pending offer slot and a body
decoding to a non-empty SDP.  The slot is fulfilled with the decoded offer
and the index of the freshly created answer future, and the handler
proceeds to the answer wait. -/
theorem onRequestSync_of_single_waiting (st : DeviceState) (i : Nat) (s sdp : String)
    (hq : st.queue = [i]) (hfut : st.offerFuts i = .pending)
    (hparse : parseSdp s = .ok sdp) (hsdp : sdp ≠ "") :
    onRequestSync st (some s) =
      ({ st with queue := [],
                 offerFuts := Function.update st.offerFuts i (.done (sdp, st.nAnswers)),
                 answerFuts := Function.update st.answerFuts st.nAnswers .pending,
                 nAnswers := st.nAnswers + 1 },
       .awaitingAnswer st.nAnswers) := by
  obtain ⟨h1, h2⟩ := body_ne_of_parse_ok s sdp hparse
  unfold onRequestSync
  rw [if_neg (body_guard_false s h1 h2)]
  simp only [Option.getD_some, hparse, if_neg hsdp, hq]
  simp only [List.isEmpty, drain, hfut, Future.isDone, Bool.not_false, if_true,
    Future.set_result, Bool.false_eq_true, if_false]

/-! ### Scenario fixtures -/

/-- A device with one signaling session waiting: a single queued,
still-pending offer slot. -/
def waitingDevice : DeviceState :=
  { queue := [0], offerFuts := fun _ => .pending, nOffers := 1,
    answerFuts := fun _ => .pending, nAnswers := 0 }

/-- A device whose single queued offer slot has already been abandoned
(cancelled by the 60 s offer-wait timeout), so draining yields nothing
live. -/
def staleDevice : DeviceState :=
  { queue := [0],
    offerFuts := fun i => if i = 0 then .cancelled else .pending,
    nOffers := 1,
    answerFuts := fun _ => .pending, nAnswers := 0 }

/-- A device on which one offer/session pairing has already happened. -/
def pairedDevice : DeviceState :=
  { queue := [],
    offerFuts := fun i => if i = 0 then .done ("o=1", 0) else .pending,
    nOffers := 1,
    answerFuts := fun _ => .pending, nAnswers := 1 }

/-- A well-behaved host session: accepts the camera offer and produces an
`"answer"`-typed description. -/
def goodHost : ScryptedSession :=
  { setRemoteResult := fun _ => .ok (), answerResult := .ok ⟨"v=0", "answer"⟩ }

/-- A host session whose `setRemoteDescription` raises. -/
def failingHost : ScryptedSession :=
  { setRemoteResult := fun _ => .error (.exc "ice failure"), answerResult := .ok ⟨"v=0", "answer"⟩ }

/-- A host session that produces a description of the wrong type. -/
def badTypeHost : ScryptedSession :=
  { setRemoteResult := fun _ => .ok (), answerResult := .ok ⟨"x", "offer"⟩ }

/-! ### Claims -/

/-- C9: for every incoming HTTP request whose body is absent/empty or is the
literal empty-object marker, the handler is a no-op: it sends no response,
creates no slot and consumes no queued slot — the device state is returned
unchanged (lines 152-154). -/
theorem C9_empty_body_noop (st : DeviceState) (body : Option String)
    (h : body = none ∨ body = some "" ∨ body = some "\x7b\x7d") :
    onRequestSync st body = (st, ReqOutcome.noResponse) := by
  rcases h with rfl | rfl | rfl <;> rfl

/-- Witness for C9 at the empty-object body. -/
theorem C9_empty_body_noop_witness :
    onRequestSync initialDevice (some "\x7b\x7d") = (initialDevice, ReqOutcome.noResponse) :=
  C9_empty_body_noop initialDevice (some "\x7b\x7d") (Or.inr (Or.inr rfl))

/-- C7: the camera-side session enforces description-type discipline:
`createLocalDescription` raises for any type other than `"offer"` (and for
`"offer"` wraps the stored offer verbatim), and `setRemoteDescription`
raises for any description not typed `"answer"` — in which case the
exchange fails without the answer future ever being resolved. -/
theorem C7_description_type_discipline (s : WHIPSession) (ty : String) (d : Description)
    (host : ScryptedSession) (hty : ty ≠ "offer") (hd : d.type ≠ "answer") :
    s.createLocalDescription ty
        = .error (.exc "can only create offers in WHIPSession.createLocalDescription") ∧
    s.createLocalDescription "offer" = .ok ⟨s.offer, "offer"⟩ ∧
    s.setRemoteDescription d
        = .error (.exc "can only accept answers in WHIPSession.setRemoteDescription") ∧
    (host.answerResult = .ok d → (descriptionExchange s.offer host .pending).2 = .pending) := by
  refine ⟨?_, ?_, ?_, ?_⟩
  · simp [WHIPSession.createLocalDescription, hty]
  · simp [WHIPSession.createLocalDescription]
  · simp [WHIPSession.setRemoteDescription, hd]
  · intro hh
    unfold descriptionExchange
    rw [show WHIPSession.createLocalDescription ⟨s.offer, Future.pending⟩ "offer"
        = .ok ⟨s.offer, "offer"⟩ from rfl]
    have hrd : WHIPSession.setRemoteDescription ⟨s.offer, Future.pending⟩ d
        = .error (.exc "can only accept answers in WHIPSession.setRemoteDescription") := by
      simp [WHIPSession.setRemoteDescription, hd]
    cases hs : host.setRemoteResult ⟨s.offer, "offer"⟩ with
    | error e => simp only [hs]
    | ok u => simp only [hs, hh, hrd]

/-- Witness for C7: wrong-type inputs on a concrete session and host. -/
theorem C7_description_type_discipline_witness :
    WHIPSession.createLocalDescription ⟨"o=1", Future.pending⟩ "answer"
        = .error (.exc "can only create offers in WHIPSession.createLocalDescription") ∧
    WHIPSession.createLocalDescription ⟨"o=1", Future.pending⟩ "offer" = .ok ⟨"o=1", "offer"⟩ ∧
    WHIPSession.setRemoteDescription ⟨"o=1", Future.pending⟩ ⟨"x", "offer"⟩
        = .error (.exc "can only accept answers in WHIPSession.setRemoteDescription") ∧
    (descriptionExchange "o=1" badTypeHost .pending).2 = .pending := by
  have h := C7_description_type_discipline ⟨"o=1", Future.pending⟩ "answer" ⟨"x", "offer"⟩
    badTypeHost (by decide) (by decide)
  exact ⟨h.1, h.2.1, h.2.2.1, h.2.2.2 rfl⟩

/-- C3 counterexample: a fulfillment attempt on an already-resolved answer
future — or on one abandoned by cancellation — raises `InvalidStateError`;
it is not an error-free no-op. -/
theorem C3_counterexample :
    WHIPSession.setRemoteDescription ⟨"x", Future.done "y"⟩ ⟨"a", "answer"⟩
        = .error .invalidState ∧
    WHIPSession.setRemoteDescription ⟨"x", Future.cancelled⟩ ⟨"a", "answer"⟩
        = .error .invalidState :=
  ⟨rfl, rfl⟩

/-- C3 (amended): every future is resolved at most once — fulfillment
succeeds exactly when the future is still pending; a second fulfillment
attempt, or one after abandonment, raises `InvalidStateError` and leaves
the future unchanged rather than being a silent no-op (and the HTTP
handler's `set_result` succeeds only on a pending slot). -/
theorem C3_resolved_at_most_once (s : WHIPSession) (d : Description) (hd : d.type = "answer") :
    (s.setRemoteDescription d = .ok (.done d.sdp) ↔ s.resolve_answer = .pending) ∧
    (s.resolve_answer ≠ .pending → s.setRemoteDescription d = .error .invalidState) ∧
    (∀ (g : Future (String × Nat)) (x : String × Nat) (f : Future (String × Nat)),
      g.set_result x = .ok f → g = .pending ∧ f = .done x) := by
  refine ⟨?_, ?_, fun g x f h => (set_result_ok_iff g x f).mp h⟩
  · unfold WHIPSession.setRemoteDescription
    rw [if_neg (by simp [hd])]
    rw [set_result_ok_iff]
    simp
  · intro h
    unfold WHIPSession.setRemoteDescription
    rw [if_neg (by simp [hd])]
    exact set_result_error _ _ h

/-- Witness for C3 (amended): first fulfillment succeeds, second raises. -/
theorem C3_resolved_at_most_once_witness :
    WHIPSession.setRemoteDescription ⟨"o", Future.pending⟩ ⟨"a", "answer"⟩
        = .ok (.done "a") ∧
    WHIPSession.setRemoteDescription ⟨"o", Future.done "z"⟩ ⟨"a", "answer"⟩
        = .error .invalidState :=
  ⟨(C3_resolved_at_most_once ⟨"o", Future.pending⟩ ⟨"a", "answer"⟩ rfl).1.mpr rfl,
   (C3_resolved_at_most_once ⟨"o", Future.done "z"⟩ ⟨"a", "answer"⟩ rfl).2.1 (by decide)⟩

/-- C2 (code bug): with a non-empty decoded SDP and a queue whose only slot
is already done (abandoned), the drain loop leaves that stale slot in its
loop variable; a Future object is always truthy, so the `not offer_fut`
503 guard (line 176) cannot fire, `set_result` on the stale future raises
`InvalidStateError`, and the generic handler answers 500 — not the
specified 503 with no fulfillment attempt.  The registry-empty half of the
claim does hold (second conjunct). -/
theorem C2_stale_drain_responds_500 :
    (onRequestSync staleDevice (some "\x7b\"data\":[111,61,49]\x7d")).2
        = ReqOutcome.responded (Response.send "Error processing request" 500) ∧
    (onRequestSync initialDevice (some "\x7b\"data\":[111,61,49]\x7d")).2
        = ReqOutcome.responded (Response.send "No pending connection" 503) ∧
    Response.send "Error processing request" 500 ≠ Response.send "No pending connection" 503 :=
  ⟨rfl, rfl, by decide⟩

/-- C8 counterexample: a body that is not valid JSON, and a body whose data
bytes are not valid UTF-8, are answered 500 by the generic handler — not
400 as the claim states. -/
theorem C8_counterexample :
    (onRequestSync initialDevice (some "\x7b")).2
        = ReqOutcome.responded (Response.send "Error processing request" 500) ∧
    (onRequestSync initialDevice (some "\x7b\"data\":[255]\x7d")).2
        = ReqOutcome.responded (Response.send "Error processing request" 500) ∧
    ReqOutcome.responded (Response.send "Error processing request" 500)
        ≠ ReqOutcome.responded (Response.send "No SDP provided" 400) :=
  ⟨rfl, rfl, by decide⟩

/-- C8 (amended): of the malformed-payload cases only an empty decoded SDP
is answered 400 ("No SDP provided"); a body that fails anywhere in the
parse pipeline — invalid JSON, ill-typed data, invalid UTF-8 — raises and
is answered 500 by the generic internal-error branch. -/
theorem C8_only_empty_sdp_gets_400 (st : DeviceState) (s : String) (e : PyError)
    (h1 : s ≠ "") (h2 : s ≠ "\x7b\x7d") :
    (parseSdp s = .error e →
      onRequestSync st (some s) = (st, .responded (.send "Error processing request" 500))) ∧
    (parseSdp s = .ok "" →
      onRequestSync st (some s) = (st, .responded (.send "No SDP provided" 400))) :=
  ⟨fun hp => onRequestSync_of_parse_error st s e h1 h2 hp,
   fun hp => onRequestSync_of_parse_empty st s h1 h2 hp⟩

/-- Witness for C8 (amended): invalid JSON gets 500; a present empty byte
array gets 400. -/
theorem C8_only_empty_sdp_gets_400_witness :
    onRequestSync initialDevice (some "not json")
        = (initialDevice, .responded (.send "Error processing request" 500)) ∧
    onRequestSync initialDevice (some "\x7b\"data\":[]\x7d")
        = (initialDevice, .responded (.send "No SDP provided" 400)) :=
  ⟨(C8_only_empty_sdp_gets_400 initialDevice "not json" .jsonDecodeError
      (by decide) (by decide)).1 rfl,
   (C8_only_empty_sdp_gets_400 initialDevice "\x7b\"data\":[]\x7d" .jsonDecodeError
      (by decide) (by decide)).2 rfl⟩

/-- C10 counterexample: a valid-JSON body whose data field is present but
is not a byte sequence — the integer 0 — converts to an *empty* bytearray
and is answered 400, not 500; and the valid-JSON empty-object body (data
absent) gets no response at all rather than a 500. -/
theorem C10_counterexample :
    (onRequestSync initialDevice (some "\x7b\"data\":0\x7d")).2
        = ReqOutcome.responded (Response.send "No SDP provided" 400) ∧
    (onRequestSync initialDevice (some "\x7b\x7d")).2 = ReqOutcome.noResponse :=
  ⟨rfl, rfl⟩

/-- C10 (amended): for bodies other than the no-op empty-object literal,
valid JSON whose data field is absent or fails the bytearray conversion
(absent data defaults to `""`, which raises `TypeError`, as do strings and
other non-byte values) is answered 500 via the generic branch; the 400
"No SDP provided" arises exactly when the bytearray conversion succeeds
with empty contents — which includes non-byte-sequence values such as the
integer 0. -/
theorem C10_ill_typed_data_500 (st : DeviceState) (s : String) (j : JValue) (e : PyError)
    (h1 : s ≠ "") (h2 : s ≠ "\x7b\x7d")
    (hjson : json_loads s = .ok j)
    (hdata : dict_get j "data" (JValue.str "") = .error e ∨
      ∃ d, dict_get j "data" (JValue.str "") = .ok d ∧ py_bytearray d = .error e) :
    onRequestSync st (some s) = (st, .responded (.send "Error processing request" 500)) ∧
    onRequestSync st (some "\x7b\"data\":0\x7d")
        = (st, .responded (.send "No SDP provided" 400)) := by
  have hp : parseSdp s = .error e := by
    unfold parseSdp
    rcases hdata with h | ⟨d, hd, hb⟩
    · simp only [hjson, h]
    · simp only [hjson, hd, hb]
  exact ⟨onRequestSync_of_parse_error st s e h1 h2 hp,
    onRequestSync_of_parse_empty st _ (by decide) (by decide) rfl⟩

/-- Witness for C10 (amended): a string-valued data field gets 500, the
integer-0 data field gets 400. -/
theorem C10_ill_typed_data_500_witness :
    onRequestSync initialDevice (some "\x7b\"data\":\"abc\"\x7d")
        = (initialDevice, .responded (.send "Error processing request" 500)) ∧
    onRequestSync initialDevice (some "\x7b\"data\":0\x7d")
        = (initialDevice, .responded (.send "No SDP provided" 400)) :=
  C10_ill_typed_data_500 initialDevice "\x7b\"data\":\"abc\"\x7d"
    (JValue.obj [("data", JValue.str "abc")])
    (.typeError "string argument without an encoding")
    (by decide) (by decide) rfl
    (Or.inr ⟨JValue.str "abc", rfl, rfl⟩)

/-- C1: with a signaling session already waiting on the single enqueued
live slot, a POST whose body decodes to a non-empty SDP fulfills that slot
with the decoded offer verbatim (paired with the fresh answer future), the
waiting session receives exactly that offer, the description exchange with
a well-behaved host succeeds and resolves the answer future with the
host's answer SDP, and the handler's answer wait yields a 201 response
whose body is exactly that answer. -/
theorem C1_rendezvous_success (st : DeviceState) (i : Nat) (s sdp A : String)
    (host : ScryptedSession)
    (hq : st.queue = [i]) (hfut : st.offerFuts i = .pending)
    (hparse : parseSdp s = .ok sdp) (hsdp : sdp ≠ "")
    (hhost1 : host.setRemoteResult ⟨sdp, "offer"⟩ = .ok ())
    (hhost2 : host.answerResult = .ok ⟨A, "answer"⟩) :
    (onRequestSync st (some s)).2 = .awaitingAnswer st.nAnswers ∧
    (onRequestSync st (some s)).1.offerFuts i = .done (sdp, st.nAnswers) ∧
    offerWait ((onRequestSync st (some s)).1.offerFuts i) = .ok (sdp, st.nAnswers) ∧
    (onRequestSync st (some s)).1.answerFuts st.nAnswers = .pending ∧
    (descriptionExchange sdp host .pending).1 = .ok () ∧
    (descriptionExchange sdp host .pending).2 = .done A ∧
    answerWait (descriptionExchange sdp host .pending).2 = .send A 201 := by
  have hreq := onRequestSync_of_single_waiting st i s sdp hq hfut hparse hsdp
  have hex := descriptionExchange_ok sdp A host hhost1 hhost2
  rw [hreq, hex]
  refine ⟨rfl, ?_, ?_, ?_, rfl, rfl, rfl⟩
  · show Function.update st.offerFuts i (.done (sdp, st.nAnswers)) i = _
    rw [Function.update_same]
  · show offerWait (Function.update st.offerFuts i (.done (sdp, st.nAnswers)) i) = _
    rw [Function.update_same]
    rfl
  · show Function.update st.answerFuts st.nAnswers .pending st.nAnswers = _
    rw [Function.update_same]

/-- Witness for C1: the spec's example body delivering offer `o=1` to a
waiting session, with a host session answering `v=0`. -/
theorem C1_rendezvous_success_witness :
    (onRequestSync waitingDevice (some "\x7b\"data\":[111,61,49]\x7d")).2
        = .awaitingAnswer 0 ∧
    (onRequestSync waitingDevice (some "\x7b\"data\":[111,61,49]\x7d")).1.offerFuts 0
        = .done ("o=1", 0) ∧
    offerWait ((onRequestSync waitingDevice (some "\x7b\"data\":[111,61,49]\x7d")).1.offerFuts 0)
        = .ok ("o=1", 0) ∧
    (onRequestSync waitingDevice (some "\x7b\"data\":[111,61,49]\x7d")).1.answerFuts 0
        = .pending ∧
    (descriptionExchange "o=1" goodHost .pending).1 = .ok () ∧
    (descriptionExchange "o=1" goodHost .pending).2 = .done "v=0" ∧
    answerWait (descriptionExchange "o=1" goodHost .pending).2 = .send "v=0" 201 :=
  C1_rendezvous_success waitingDevice 0 "\x7b\"data\":[111,61,49]\x7d" "o=1" "v=0" goodHost
    rfl rfl rfl (by decide) rfl rfl

/-- C4: resolving the slot's answer future is precisely the final
`setRemoteDescription` on the camera session — the answer future ends
resolved iff the whole exchange succeeded, and then it carries exactly the
sdp of the `"answer"`-typed description the host produced; if any step
throws first, the error propagates with the answer future still pending,
so the HTTP side's bounded answer wait (1 s) times out and it responds
504. -/
theorem C4_answer_resolution (offer A : String) (host : ScryptedSession) :
    ANSWER_TIMEOUT = 1 ∧
    ((descriptionExchange offer host .pending).2 = .done A ↔
      (descriptionExchange offer host .pending).1 = .ok () ∧
      ∃ d, host.answerResult = .ok d ∧ d.type = "answer" ∧ d.sdp = A) ∧
    ((∃ e, (descriptionExchange offer host .pending).1 = .error e) →
      (descriptionExchange offer host .pending).2 = .pending ∧
      answerWait (descriptionExchange offer host .pending).2
          = .send "Timeout waiting for answer" 504) := by
  refine ⟨rfl, ?_⟩
  cases hs : host.setRemoteResult ⟨offer, "offer"⟩ with
  | error e0 =>
    have hE : descriptionExchange offer host .pending = (.error e0, .pending) := by
      unfold descriptionExchange
      rw [show WHIPSession.createLocalDescription ⟨offer, Future.pending⟩ "offer"
          = .ok ⟨offer, "offer"⟩ from rfl]
      simp only [hs]
    rw [hE]
    refine ⟨?_, fun _ => ⟨rfl, rfl⟩⟩
    constructor
    · intro h; exact absurd h (by simp)
    · rintro ⟨h, -⟩; exact absurd h (by simp)
  | ok u =>
    cases ha : host.answerResult with
    | error e0 =>
      have hE : descriptionExchange offer host .pending = (.error e0, .pending) := by
        unfold descriptionExchange
        rw [show WHIPSession.createLocalDescription ⟨offer, Future.pending⟩ "offer"
            = .ok ⟨offer, "offer"⟩ from rfl]
        simp only [hs, ha]
      rw [hE]
      refine ⟨?_, fun _ => ⟨rfl, rfl⟩⟩
      constructor
      · intro h; exact absurd h (by simp)
      · rintro ⟨h, -⟩; exact absurd h (by simp)
    | ok d =>
      by_cases hd : d.type = "answer"
      · have hrd : WHIPSession.setRemoteDescription ⟨offer, Future.pending⟩ d
            = .ok (.done d.sdp) := by
          unfold WHIPSession.setRemoteDescription
          rw [if_neg (by simp [hd])]
          rfl
        have hE : descriptionExchange offer host .pending = (.ok (), .done d.sdp) := by
          unfold descriptionExchange
          rw [show WHIPSession.createLocalDescription ⟨offer, Future.pending⟩ "offer"
              = .ok ⟨offer, "offer"⟩ from rfl]
          simp only [hs, ha, hrd]
        rw [hE]
        refine ⟨?_, ?_⟩
        · constructor
          · intro h
            have hsA : d.sdp = A := by
              have h2 : Future.done d.sdp = Future.done A := h
              injection h2
            exact ⟨rfl, d, rfl, hd, hsA⟩
          · rintro ⟨-, d1, hd1, -, hsdp⟩
            injection hd1 with h12
            subst h12
            show Future.done d.sdp = Future.done A
            rw [hsdp]
        · rintro ⟨e, he⟩
          exact absurd he (by simp)
      · have hrd : WHIPSession.setRemoteDescription ⟨offer, Future.pending⟩ d
            = .error (.exc "can only accept answers in WHIPSession.setRemoteDescription") := by
          simp [WHIPSession.setRemoteDescription, hd]
        have hE : descriptionExchange offer host .pending
            = (.error (.exc "can only accept answers in WHIPSession.setRemoteDescription"),
               .pending) := by
          unfold descriptionExchange
          rw [show WHIPSession.createLocalDescription ⟨offer, Future.pending⟩ "offer"
              = .ok ⟨offer, "offer"⟩ from rfl]
          simp only [hs, ha, hrd]
        rw [hE]
        refine ⟨?_, fun _ => ⟨rfl, rfl⟩⟩
        constructor
        · intro h; exact absurd h (by simp)
        · rintro ⟨-, d1, hd1, ht, -⟩
          injection hd1 with h12
          subst h12
          exact absurd ht hd

/-- Witness for C4: a host whose `setRemoteDescription` raises leaves the
answer future pending, and the answer wait times out with 504. -/
theorem C4_answer_resolution_witness :
    (descriptionExchange "o=1" failingHost .pending).2 = .pending ∧
    answerWait (descriptionExchange "o=1" failingHost .pending).2
        = .send "Timeout waiting for answer" 504 :=
  (C4_answer_resolution "o=1" "v=0" failingHost).2.2 ⟨.exc "ice failure", rfl⟩

/-- C6: a starting signaling session enqueues a fresh pending offer slot at
the tail of the queue and awaits it with the 60-second bound; a wait that
expires raises TimeoutError (the session fails with "Timeout waiting for
camera offer") and cancels the slot, and across any subsequent trace of
events the cancelled slot is never fulfilled — no later claim can match
it. -/
theorem C6_offer_timeout (st : DeviceState) (tr : List Event) (j : Nat)
    (hj : j < st.nOffers) (hpend : st.offerFuts j = .pending) :
    (startSessionEnqueue st).1.queue = st.queue ++ [st.nOffers] ∧
    (startSessionEnqueue st).1.offerFuts (startSessionEnqueue st).2 = .pending ∧
    OFFER_TIMEOUT = 60 ∧
    offerWait .pending = .error .timeoutError ∧
    (applyEvent st (.offerTimeout j)).offerFuts j = .cancelled ∧
    ∀ v, (applyTrace (applyEvent st (.offerTimeout j)) tr).offerFuts j ≠ .done v := by
  have hc : (applyEvent st (.offerTimeout j)).offerFuts j = .cancelled := by
    show (if st.offerFuts j = .pending then _ else st).offerFuts j = _
    rw [if_pos hpend]
    show Function.update st.offerFuts j .cancelled j = _
    rw [Function.update_same]
  have hj2 : j < (applyEvent st (.offerTimeout j)).nOffers := by
    rw [nOffers_applyEvent]
    omega
  refine ⟨rfl, ?_, rfl, rfl, hc, ?_⟩
  · show Function.update st.offerFuts st.nOffers .pending st.nOffers = _
    rw [Function.update_same]
  · intro v h
    rw [cancelled_stays_trace _ tr j hj2 hc] at h
    exact Future.noConfusion h

/-- Witness for C6: the waiting device's slot times out; even a subsequent
well-formed offer submission cannot match the abandoned slot. -/
theorem C6_offer_timeout_witness :
    (startSessionEnqueue waitingDevice).1.queue = [0, 1] ∧
    (startSessionEnqueue waitingDevice).1.offerFuts (startSessionEnqueue waitingDevice).2
        = .pending ∧
    OFFER_TIMEOUT = 60 ∧
    offerWait .pending = .error .timeoutError ∧
    (applyEvent waitingDevice (.offerTimeout 0)).offerFuts 0 = .cancelled ∧
    (applyTrace (applyEvent waitingDevice (.offerTimeout 0))
        [.httpRequest (some "\x7b\"data\":[111,61,49]\x7d")]).offerFuts 0
      ≠ .done ("o=1", 0) := by
  have h := C6_offer_timeout waitingDevice [.httpRequest (some "\x7b\"data\":[111,61,49]\x7d")]
    0 (by decide) rfl
  exact ⟨h.1, h.2.1, h.2.2.1, h.2.2.2.1, h.2.2.2.2.1, h.2.2.2.2.2 ("o=1", 0)⟩

/-- C5: across any interleaving of HTTP offer submissions and
signaling-session claims against one fresh device, the number of
offer/session pairings (fulfilled offer slots) is at most the minimum of
the number of submissions and the number of session claims; each single
submission fulfills at most one slot, so no offer is delivered to two
sessions; and a fulfilled slot keeps its offer forever across any further
events, so no session receives a second offer. -/
theorem C5_pairing_bounds (tr tr2 : List Event) (st : DeviceState) (b : Option String)
    (j : Nat) (v : String × Nat)
    (hj : j < st.nOffers) (hv : st.offerFuts j = .done v) :
    doneOffers (applyTrace initialDevice tr)
        ≤ min (countEvents isRequestEvent tr) (countEvents isSessionEvent tr) ∧
    (∃ oi, ∀ k, k ≠ oi → (onRequestSync st b).1.offerFuts k = st.offerFuts k) ∧
    (applyTrace st tr2).offerFuts j = .done v := by
  refine ⟨?_, onRequestSync_one_change st b, done_stays_trace st tr2 j v hj hv⟩
  have h1 := doneOffers_applyTrace_le initialDevice tr
  have h2 := doneOffers_le_nOffers (applyTrace initialDevice tr)
  have h3 := nOffers_applyTrace initialDevice tr
  have h0 : doneOffers initialDevice = 0 := rfl
  have h4 : initialDevice.nOffers = 0 := rfl
  rw [h0] at h1
  rw [h3, h4] at h2
  exact Nat.le_min.mpr ⟨by omega, by omega⟩

/-- Witness for C5: a trace of one session claim and one submission yields
the one pairing of the paired device, which persists. -/
theorem C5_pairing_bounds_witness :
    doneOffers (applyTrace initialDevice
        [.startSession, .httpRequest (some "\x7b\"data\":[111,61,49]\x7d")])
      ≤ min (countEvents isRequestEvent
          [.startSession, .httpRequest (some "\x7b\"data\":[111,61,49]\x7d")])
        (countEvents isSessionEvent
          [.startSession, .httpRequest (some "\x7b\"data\":[111,61,49]\x7d")]) ∧
    (∃ oi, ∀ k, k ≠ oi →
      (onRequestSync pairedDevice none).1.offerFuts k = pairedDevice.offerFuts k) ∧
    (applyTrace pairedDevice []).offerFuts 0 = .done ("o=1", 0) :=
  C5_pairing_bounds
    [.startSession, .httpRequest (some "\x7b\"data\":[111,61,49]\x7d")] []
    pairedDevice none 0 ("o=1", 0) (by decide) (by decide)

end Whip
